import Mathlib

/-!
Shallow embedding of the Chessy repository (src/chess/game.py,
src/chessy/board_representation.py, src/chessy/notations/fen.py).

The board is embedded as a list of 8 rows of 8 signed piece codes
(`List (List Int)`), mirroring the numpy `int8` array of shape (8, 8):
0 empty, 1 pawn, 2 knight, 3 bishop, 4 rook, 5 queen, 6 king, positive
for white and negative for black.  Fallible Python code (raised
exceptions) is embedded with `Except PyErr`.
-/

namespace Chessy

/-- Python exceptions that the embedded code can raise.  `illegalMoveError`
is the repository's own `IllegalMoveError`; the others stand for the
built-in Python/numpy exceptions of the same names (the message strings
are representative constants for the dynamically formatted originals). -/
inductive PyErr where
  | illegalMoveError (msg : String)
  | valueError (msg : String)
  | typeError (msg : String)
  | indexError (msg : String)
  | attributeError (msg : String)
  | overflowError (msg : String)
deriving DecidableEq

/-- Rows of a board: 8 lists of 8 signed piece codes. -/
abbrev Rows := List (List Int)

/-- An 8 x 8 array of zeros (`np.zeros((8, 8), dtype=np.int8)`). -/
def zeros8x8 : Rows := List.replicate 8 (List.replicate 8 0)

/-- Assignment of a whole row, `board[i, :] = row` for `0 <= i < 8`. -/
def setRow (b : Rows) (i : Nat) (row : List Int) : Rows := b.set i row

/-- In-range board read `board[r, c]` (callers guarantee 0 <= r, c < 8). -/
def rowsGet (b : Rows) (r c : Int) : Int := (b.getD r.toNat []).getD c.toNat 0

/-- ChessGame.new_board (game.py lines 316-326): zeros, then
`board[1, :] = 1`, `board[-2, :] = -1` (numpy row -2 is row 6),
`board[0, :] = [4, 2, 3, 5, 6, 3, 2, 4]`, and `board[-1, :] = -board[0]`
(row 7 is the negation of row 0 as already assigned). -/
def new_board : Rows :=
  let b := zeros8x8
  let b := setRow b 1 (List.replicate 8 1)
  let b := setRow b 6 (List.replicate 8 (-1))
  let b := setRow b 0 [4, 2, 3, 5, 6, 3, 2, 4]
  setRow b 7 ((b.getD 0 []).map (fun x => -x))

/-- Castling availabilities of both sides, embedding the
`castling_rights` dictionaries of board_representation.py / fen.py
(keys: player 1 / -1, then queenside / kingside). -/
structure CastlingRightsE where
  whiteQueenside : Bool
  whiteKingside : Bool
  blackQueenside : Bool
  blackKingside : Bool
deriving DecidableEq

/-- BoardState (board_representation.py lines 13-53): the named tuple of
board rows, castling rights, player to move, en-passant file, fifty-move
count and ply count. -/
structure BoardStateE where
  board : Rows
  castling_rights : CastlingRightsE
  player : Int
  enpassant_file : Int
  fifty_move_count : Int
  ply_count : Int
deriving DecidableEq

/-- BoardState.create_new_game (board_representation.py lines 55-80):
zeros, `board[(1, -2), :] = [[1], [-1]]` (rows 1 and 6 broadcast to all
ones / all minus-ones), `board[0, :] = [4, 2, 3, 5, 6, 3, 2, 4]`,
`board[-1, :] = -board[0]`; castling rights all True, player 1,
en-passant file -1, fifty-move count 0, ply count 0. -/
def create_new_game : BoardStateE :=
  let b := zeros8x8
  let b := setRow b 1 (List.replicate 8 1)
  let b := setRow b 6 (List.replicate 8 (-1))
  let b := setRow b 0 [4, 2, 3, 5, 6, 3, 2, 4]
  let b := setRow b 7 ((b.getD 0 []).map (fun x => -x))
  ⟨b, ⟨true, true, true, true⟩, 1, -1, 0, 0⟩

/-- ChessGame instance state (game.py lines 10-20): board rows, turn
(1 white, -1 black), the 3 x 2 castling array `[[0,0],[1,1],[1,1]]`,
en-passant column (-1 when none), fifty-move counter, game-over flag and
the stored terminal score of white. -/
structure GameState where
  board : Rows
  turn : Int
  can_castle : List (List Int)
  enpassant : Int
  fifty_move_draw_count : Int
  game_over : Bool
  score : Int
deriving DecidableEq

/-- The freshly constructed ChessGame (game.py `__init__`). -/
def initGame : GameState := ⟨new_board, 1, [[0, 0], [1, 1], [1, 1]], -1, 0, false, 0⟩

/-- Numpy indexing of one axis of size `n`: an index `i` with
`i >= n` or `i < -n` raises IndexError, and a negative in-range index
wraps to `i + n`. -/
def npAxis (n i : Int) : Except PyErr Int :=
  if n ≤ i ∨ i < -n then
    .error (.indexError "index out of bounds for axis with size 8")
  else .ok (if i < 0 then i + n else i)

/-- Numpy tuple indexing `board[s]` of the (8, 8) board array. -/
def npIndex (b : Rows) (s : Int × Int) : Except PyErr Int := do
  let r ← npAxis 8 s.1
  let c ← npAxis 8 s.2
  pure (rowsGet b r c)

/-- ChessGame.square_is_empty (game.py lines 145-149):
`self._board[s] == 0`. -/
def square_is_empty (g : GameState) (s : Int × Int) : Except PyErr Bool := do
  let p ← npIndex g.board s
  pure (p = 0)

/-- ChessGame.square_belongs_to_current_player (game.py lines 151-155):
`self._turn == np.sign(self._board[s])`. -/
def square_belongs_to_current_player (g : GameState) (s : Int × Int) :
    Except PyErr Bool := do
  let p ← npIndex g.board s
  pure (g.turn = p.sign)

/-- ChessGame.squares_are_inside_board (game.py lines 157-175) when
called with a single square as a 2-tuple, as raise_for_illegal_move
does: the code runs `np.ndarray([s])`, which treats the tuple as a shape
argument; numpy cannot interpret the inner tuple as an integer and
raises TypeError before anything else happens. -/
def squares_are_inside_board_tuple (_s : Int × Int) : Except PyErr Bool :=
  .error (.typeError "tuple object cannot be interpreted as an integer")

/-- ChessGame.squares_are_inside_board on a genuine array of squares (the
path taken by square_is_attacked_by_knight): componentwise
`s < 8 and s > -1`. -/
def square_inside_board (p : Int × Int) : Bool :=
  decide (p.1 < 8 ∧ -1 < p.1 ∧ p.2 < 8 ∧ -1 < p.2)

/-- First index of a non-zero element, embedding `np.nonzero(line)[0]`
followed by taking element 0 (none when the line has no non-zero). -/
def nonzeroIdx : List Int → Option Nat
  | [] => none
  | a :: l => if a ≠ 0 then some 0 else (nonzeroIdx l).map (· + 1)

/-- Distance to the relevant board edge for a diagonal direction
(game.py line 298): `min([7 - s[i] if d[i] == 1 else s[i] for i in range(2)])`. -/
def dEdge (s d : Int × Int) : Int :=
  min (if d.1 = 1 then 7 - s.1 else s.1) (if d.2 = 1 then 7 - s.2 else s.2)

/-- The board values along a diagonal ray as the source's slicing builds
them (game.py lines 300-305): for each axis the slice
`slice(s[i] + d[i], s[i] + d[i] + d[i] * d_edge, d[i])`, then the main
diagonal of the sub-board, whose entry k is
`board[s + d * (k + 1)]`.  When an axis has `d[i] = -1` and
`d_edge = s[i]`, the slice stop `s[i] - 1 - d_edge` is -1, which Python
wraps to index 7: that axis's slice is then empty, so the whole line is
empty and no piece is ever found in that direction. -/
def ray_line (b : Rows) (s d : Int × Int) : List Int :=
  let dE := dEdge s d
  if (d.1 = -1 ∧ dE = s.1) ∨ (d.2 = -1 ∧ dE = s.2) then []
  else (List.range dE.toNat).map fun k =>
    rowsGet b (s.1 + d.1 * (k + 1)) (s.2 + d.2 * (k + 1))

/-- The value ChessGame.nearest_piece_in_direction computes for a
diagonal direction: the first non-zero entry of the sliced line, read
back from the board at distance `index + 1` (game.py lines 306-314), or
0 when the line has no non-zero entry. -/
def nearest_piece_ray (b : Rows) (s d : Int × Int) : Int :=
  match nonzeroIdx (ray_line b s d) with
  | none => 0
  | some k => rowsGet b (s.1 + d.1 * ((k : Int) + 1)) (s.2 + d.2 * ((k : Int) + 1))

/-- ChessGame.nearest_piece_in_direction (game.py lines 272-314).  For a
direction with a zero component (the orthogonal case) the slicing tuple
contains `slice(s[i], s[i], 0)`, and numpy raises
"ValueError: slice step cannot be zero" before reading the board; for a
diagonal direction the sliced line is scanned for its first non-zero
entry. -/
def nearest_piece_in_direction (b : Rows) (s d : Int × Int) : Except PyErr Int :=
  if d.1 = 0 ∨ d.2 = 0 then .error (.valueError "slice step cannot be zero")
  else .ok (nearest_piece_ray b s d)

/-- Modelled from the spec (4.1 RayScanner), as the expected behaviour
the claims compare the code against: walk from the origin, stepping by
the direction, until either the board edge (return 0) or the first
occupied square (return its piece code).  The fuel of 8 steps covers
every ray of an 8 x 8 board. -/
def nearestOccupantSpecAux (b : Rows) (r c dr dc : Int) : Nat → Int
  | 0 => 0
  | fuel + 1 =>
    if 0 ≤ r ∧ r < 8 ∧ 0 ≤ c ∧ c < 8 then
      if rowsGet b r c ≠ 0 then rowsGet b r c
      else nearestOccupantSpecAux b (r + dr) (c + dc) dr dc fuel
    else 0

/-- Modelled from the spec (4.1 RayScanner): the nearest occupant
strictly along the ray from `s` in direction `d`, by explicit stepping. -/
def nearestOccupantSpec (b : Rows) (s d : Int × Int) : Int :=
  nearestOccupantSpecAux b (s.1 + d.1) (s.2 + d.2) d.1 d.2 8

/-- The eight knight move offsets (game.py lines 257-260). -/
def knight_moves : List (Int × Int) :=
  [(2, 1), (2, -1), (1, 2), (1, -2), (-1, 2), (-1, -2), (-2, 1), (-2, -1)]

/-- ChessGame.square_is_attacked_by_knight (game.py lines 252-267): add
each knight offset to the square, keep the in-board results (this call
passes a genuine array, so the working componentwise bound check runs),
and test whether an opposing knight sits on one of them. -/
def square_is_attacked_by_knight (g : GameState) (s : Int × Int) : Bool :=
  let pos := knight_moves.map fun m => (s.1 + m.1, s.2 + m.2)
  let inboard := pos.filter square_inside_board
  (inboard.map fun p => rowsGet g.board p.1 p.2).contains (-g.turn * 2)

/-- Positions of the squares holding the opposing king, in row-major
order, embedding `np.argwhere(self._board == -turn * 6)`. -/
def king_cells (b : Rows) (t : Int) : List (Int × Int) :=
  (List.range 8).flatMap fun r => (List.range 8).filterMap fun c =>
    if rowsGet b r c = -t * 6 then some ((r : Int), (c : Int)) else none

/-- The adjacency test the source runs once an opposing king shows up
among the nearest neighbors: `np.abs(king_pos - s).max() == 1`, the
maximum over all coordinate differences of all found king squares.  The
empty case (numpy would raise on an empty max) is unreachable, because
the callers only enter this test when an opposing king was read off the
board. -/
def opponent_king_adjacent (b : Rows) (t : Int) (s : Int × Int) : Bool :=
  match king_cells b t with
  | [] => false
  | ps => (ps.map fun p => max (p.1 - s.1).natAbs (p.2 - s.2).natAbs).foldl max 0 = 1

/-- ChessGame.square_is_attacked_orthogonal (game.py lines 195-218):
nearest neighbors in the four orthogonal directions (each of which the
ray scanner answers with ValueError, see nearest_piece_in_direction),
then rook/queen membership, then the king adjacency test. -/
def square_is_attacked_orthogonal (g : GameState) (s : Int × Int) :
    Except PyErr Bool := do
  let n1 ← nearest_piece_in_direction g.board s (1, 0)
  let n2 ← nearest_piece_in_direction g.board s (-1, 0)
  let n3 ← nearest_piece_in_direction g.board s (0, 1)
  let n4 ← nearest_piece_in_direction g.board s (0, -1)
  let ns := [n1, n2, n3, n4]
  if ns.contains (-g.turn * 4) ∨ ns.contains (-g.turn * 5) then pure true
  else if ns.contains (-g.turn * 6) then pure (opponent_king_adjacent g.board g.turn s)
  else pure false

/-- ChessGame.square_is_attacked_diagonal (game.py lines 220-250): the
nearest neighbors in the two diagonal directions toward the opponent's
side and the two toward the mover's own side (all diagonal, so the ray
scanner returns them without raising), then bishop/queen membership,
then the king adjacency test, then the pawn test.  The pawn conditional
at game.py line 246 has no body in the source (a syntax error), so its
effect is modelled from the spec: an opposing pawn attacks exactly the
two squares one diagonal step away on the side toward the opponent
(pawns attack only forward-diagonally relative to their own advance
direction, never backward); such a pawn is in particular the nearest
occupant of its direction. -/
def square_is_attacked_diagonal (g : GameState) (s : Int × Int) : Bool :=
  let t := g.turn
  let towardsOpp :=
    [nearest_piece_ray g.board s (t, 1), nearest_piece_ray g.board s (t, -1)]
  let towardsSelf :=
    [nearest_piece_ray g.board s (-t, 1), nearest_piece_ray g.board s (-t, -1)]
  let ns := towardsSelf ++ towardsOpp
  if ns.contains (-t * 3) ∨ ns.contains (-t * 5) then true
  else if ns.contains (-t * 6) ∧ opponent_king_adjacent g.board t s then true
  else if (square_inside_board (s.1 + t, s.2 + 1) ∧
            rowsGet g.board (s.1 + t) (s.2 + 1) = -t * 1) ∨
          (square_inside_board (s.1 + t, s.2 - 1) ∧
            rowsGet g.board (s.1 + t) (s.2 - 1) = -t * 1) then true
  else false

/-- ChessGame.square_is_attacked_by_opponent (game.py lines 185-193):
the `or` of the knight, orthogonal and diagonal tests, evaluated left to
right as Python does (a later test only runs when the earlier ones were
falsy, so the orthogonal ValueError only surfaces when no knight
attacks). -/
def square_is_attacked_by_opponent (g : GameState) (s : Int × Int) :
    Except PyErr Bool := do
  if square_is_attacked_by_knight g s then pure true
  else do
    let o ← square_is_attacked_orthogonal g s
    if o then pure true else pure (square_is_attacked_diagonal g s)

/-- ChessGame.move_breaks_absolute_pin (game.py lines 269-270): the body
is `pass`, so the method returns None, which is falsy everywhere the
result is used. -/
def move_breaks_absolute_pin (_g : GameState) (_s0 _s1 : Int × Int) : Bool := false

/-- ChessGame.move_results_in_own_check (game.py lines 177-183): for a
king, whether the destination is attacked on the CURRENT board (the king
still standing on its origin); for any other piece, the pin test. -/
def move_results_in_own_check (g : GameState) (s0 s1 : Int × Int) :
    Except PyErr Bool := do
  let p ← npIndex g.board s0
  if p.natAbs = 6 then square_is_attacked_by_opponent g s1
  else pure (move_breaks_absolute_pin g s0 s1)

/-- Name of the player to move (the `_COLORS` lookup of game.py line 7;
the dictionary only has the keys 1 and -1). -/
def color_name (t : Int) : String := if t = 1 then "white" else "black"

/-- ChessGame.raise_for_illegal_move (game.py lines 111-143): empty
origin, wrong turn, destination occupied by the mover, the two bounds
checks (whose helper raises TypeError on the tuple argument), and the
own-check test, in source order, raising on the first failure. -/
def raise_for_illegal_move (g : GameState) (s0 s1 : Int × Int) :
    Except PyErr Unit := do
  let e0 ← square_is_empty g s0
  if e0 then throw (.illegalMoveError "Start-square is empty.")
  let b0 ← square_belongs_to_current_player g s0
  if !b0 then throw (.illegalMoveError ("It is " ++ color_name g.turn ++ "\x27s turn."))
  let b1 ← square_belongs_to_current_player g s1
  if b1 then throw (.illegalMoveError "End-square occupied by current player\x27s piece.")
  let in0 ← squares_are_inside_board_tuple s0
  if !in0 then throw (.illegalMoveError "Start-square is out of board.")
  let in1 ← squares_are_inside_board_tuple s1
  if !in1 then throw (.illegalMoveError "End-square is out of board.")
  let chk ← move_results_in_own_check g s0 s1
  if chk then throw (.illegalMoveError "Move results in current player being checked.")
  pure ()

/-- ChessGame.move (game.py lines 87-109), with the successor state made
explicit: when the game is over, the stored score is returned and
nothing is validated; otherwise the legality check runs (its exceptions
propagate, leaving the state untouched, since every check only reads
state); when it passes, the source calls `self._update_game_state`,
which no method of the class defines, so Python raises AttributeError
before any state changes. -/
def move (g : GameState) (s0 s1 : Int × Int) :
    Except PyErr (Option Int) × GameState :=
  if g.game_over then (.ok (some g.score), g)
  else
    match raise_for_illegal_move g s0 s1 with
    | .error e => (.error e, g)
    | .ok _ =>
      (.error (.attributeError "ChessGame object has no attribute _update_game_state"), g)

/-- White king on e1, white knight on d2 pinned by the black bishop on
b4 along the a5-e1 diagonal; black king on e8.  White to move. -/
def pin_board : Rows :=
  [[0, 0, 0, 0, 6, 0, 0, 0],
   [0, 0, 0, 2, 0, 0, 0, 0],
   [0, 0, 0, 0, 0, 0, 0, 0],
   [0, -3, 0, 0, 0, 0, 0, 0],
   [0, 0, 0, 0, 0, 0, 0, 0],
   [0, 0, 0, 0, 0, 0, 0, 0],
   [0, 0, 0, 0, 0, 0, 0, 0],
   [0, 0, 0, 0, -6, 0, 0, 0]]

/-- The pin position as a game state, white to move. -/
def pin_game : GameState := ⟨pin_board, 1, [[0, 0], [1, 1], [1, 1]], -1, 0, false, 0⟩

/-- The pin position after the pinned knight jumps from d2 to b3, off
the pin ray. -/
def pin_board_after : Rows :=
  [[0, 0, 0, 0, 6, 0, 0, 0],
   [0, 0, 0, 0, 0, 0, 0, 0],
   [0, 2, 0, 0, 0, 0, 0, 0],
   [0, -3, 0, 0, 0, 0, 0, 0],
   [0, 0, 0, 0, 0, 0, 0, 0],
   [0, 0, 0, 0, 0, 0, 0, 0],
   [0, 0, 0, 0, 0, 0, 0, 0],
   [0, 0, 0, 0, -6, 0, 0, 0]]

/-- White king on e5, black rook on e8, black king on a8; white to
move. -/
def c3_board : Rows :=
  [[0, 0, 0, 0, 0, 0, 0, 0],
   [0, 0, 0, 0, 0, 0, 0, 0],
   [0, 0, 0, 0, 0, 0, 0, 0],
   [0, 0, 0, 0, 0, 0, 0, 0],
   [0, 0, 0, 0, 6, 0, 0, 0],
   [0, 0, 0, 0, 0, 0, 0, 0],
   [0, 0, 0, 0, 0, 0, 0, 0],
   [-6, 0, 0, 0, -4, 0, 0, 0]]

/-- The king-retreat position as a game state, white to move. -/
def c3_game : GameState := ⟨c3_board, 1, [[0, 0], [1, 1], [1, 1]], -1, 0, false, 0⟩

/-- The king-retreat position after the white king moves from e5 to e4,
straight away from the checking rook: e4 is attacked by the rook down
the now-open e-file. -/
def c3_board_after : Rows :=
  [[0, 0, 0, 0, 0, 0, 0, 0],
   [0, 0, 0, 0, 0, 0, 0, 0],
   [0, 0, 0, 0, 0, 0, 0, 0],
   [0, 0, 0, 0, 6, 0, 0, 0],
   [0, 0, 0, 0, 0, 0, 0, 0],
   [0, 0, 0, 0, 0, 0, 0, 0],
   [0, 0, 0, 0, 0, 0, 0, 0],
   [-6, 0, 0, 0, -4, 0, 0, 0]]

/-- Black bishop on a1 on the open long diagonal below c3; white king on
a8, black king on h8.  White to move; the square under test is c3. -/
def c6_board : Rows :=
  [[-3, 0, 0, 0, 0, 0, 0, 0],
   [0, 0, 0, 0, 0, 0, 0, 0],
   [0, 0, 0, 0, 0, 0, 0, 0],
   [0, 0, 0, 0, 0, 0, 0, 0],
   [0, 0, 0, 0, 0, 0, 0, 0],
   [0, 0, 0, 0, 0, 0, 0, 0],
   [0, 0, 0, 0, 0, 0, 0, 0],
   [6, 0, 0, 0, 0, 0, 0, -6]]

/-- The bishop position as a game state, white to move. -/
def c6_game : GameState := ⟨c6_board, 1, [[0, 0], [1, 1], [1, 1]], -1, 0, false, 0⟩

/-- A finished game: the starting position frozen with game_over set. -/
def over_game : GameState := ⟨new_board, 1, [[0, 0], [1, 1], [1, 1]], -1, 0, true, 0⟩

/-- Modelled from the spec: src/chessy/consts.py is not in the source
tree; the color constants follow the project-wide sign convention
(white pieces positive, black negative). -/
def WHITE : Int := 1

/-- Modelled from the spec: the black color constant, see WHITE. -/
def BLACK : Int := -1

/-- Modelled from the spec: src/chessy/notations/mappings.py is not in
the source tree; PIECE_LETTERS maps the algebraic piece letters to the
piece codes 1..6 used throughout the data model. -/
def PIECE_LETTERS (c : Char) : Option Int :=
  if c = 'P' then some 1
  else if c = 'N' then some 2
  else if c = 'B' then some 3
  else if c = 'R' then some 4
  else if c = 'Q' then some 5
  else if c = 'K' then some 6
  else none

/-- Modelled from the spec: the FILES mapping of mappings.py, file
letters a..h to the column indices 0..7. -/
def FILES (c : Char) : Option Int :=
  if c = 'a' then some 0
  else if c = 'b' then some 1
  else if c = 'c' then some 2
  else if c = 'd' then some 3
  else if c = 'e' then some 4
  else if c = 'f' then some 5
  else if c = 'g' then some 6
  else if c = 'h' then some 7
  else none

/-- Helper of splitWs: accumulate the current field (reversed). -/
def splitWsAux : List Char → List Char → List (List Char)
  | [], acc => if acc = [] then [] else [acc.reverse]
  | c :: rest, acc =>
    if c = ' ' then
      if acc = [] then splitWsAux rest [] else acc.reverse :: splitWsAux rest []
    else splitWsAux rest (c :: acc)

/-- Python str.split() with no argument, restricted to the space
character: runs of spaces separate fields, leading and trailing runs
are ignored (FEN fields are space-separated). -/
def splitWs (l : List Char) : List (List Char) := splitWsAux l []

/-- Helper of splitOnChar: accumulate the current piece (reversed). -/
def splitOnAux (sep : Char) : List Char → List Char → List (List Char)
  | [], acc => [acc.reverse]
  | c :: rest, acc =>
    if c = sep then acc.reverse :: splitOnAux sep rest []
    else splitOnAux sep rest (c :: acc)

/-- Python str.split(sep): split at every separator, keeping empty
pieces. -/
def splitOnChar (sep : Char) (l : List Char) : List (List Char) := splitOnAux sep l []

/-- One rank of the FEN piece data (fen.py lines 50-60): a digit
extends the row with that many empty squares (`square.isnumeric()`,
taken here as an ASCII digit — the records under consideration are
ASCII), any other character must be a known piece letter, signed by its
case, else ValueError. -/
def parse_rank : List Char → List Int → Except PyErr (List Int)
  | [], acc => .ok acc
  | c :: rest, acc =>
    if c.isDigit then
      parse_rank rest (acc ++ List.replicate (c.toNat - '0'.toNat) 0)
    else
      match PIECE_LETTERS c.toUpper with
      | some p =>
        parse_rank rest (acc ++ [(if c.isUpper then WHITE else BLACK) * p])
      | none =>
        .error (.valueError ("Piece notation " ++ String.mk [c] ++ " is unknown."))

/-- All ranks of the FEN piece data in board order (already reversed by
the caller), each checked to describe exactly eight squares (fen.py
lines 61-62). -/
def parse_ranks : List (List Char) → Except PyErr Rows
  | [] => .ok []
  | r :: rest => do
    let row ← parse_rank r []
    if row.length ≠ 8 then
      throw (.valueError ("Each rank should describe eight squares; got " ++
        toString row.length))
    let rows ← parse_ranks rest
    pure (row :: rows)

/-- The castling availability field (fen.py lines 75-88): uppercase
letters are white's, lowercase black's; a '-' character stops the scan
(Python `break`) leaving the remaining characters unexamined; K/k set
kingside, Q/q queenside, anything else raises ValueError.  Arguments
after the character list: white queenside, white kingside, black
queenside, black kingside so far. -/
def parse_castling : List Char → Bool → Bool → Bool → Bool → Except PyErr CastlingRightsE
  | [], wq, wk, bq, bk => .ok ⟨wq, wk, bq, bk⟩
  | c :: rest, wq, wk, bq, bk =>
    if c = '-' then .ok ⟨wq, wk, bq, bk⟩
    else if c.toUpper = 'K' then
      if c.isUpper then parse_castling rest wq true bq bk
      else parse_castling rest wq wk bq true
    else if c.toUpper = 'Q' then
      if c.isUpper then parse_castling rest true wk bq bk
      else parse_castling rest wq wk true bk
    else
      .error (.valueError ("Castling availability field unrecognized; got " ++
        String.mk [c]))

/-- The en-passant field (fen.py lines 93-99): "-" means none (-1);
otherwise only the FIRST character is looked up in FILES — the rank
character is never examined. -/
def parse_enpassant (f : List Char) : Except PyErr Int :=
  if f = ['-'] then .ok (-1)
  else
    match FILES (f.headD ' ') with
    | some v => .ok v
    | none =>
      .error (.valueError ("En passant target square not recognized; got " ++
        String.mk f))

/-- Digits of a decimal literal, most significant first. -/
def parse_int_digits : List Char → Option Int
  | [] => none
  | l => go l 0
where
  go : List Char → Int → Option Int
    | [], acc => some acc
    | c :: rest, acc =>
      if c.isDigit then go rest (acc * 10 + ((c.toNat : Int) - ('0'.toNat : Int)))
      else none

/-- Python int() over a string: an optional sign followed by digits
(surrounding whitespace and underscores are not modelled; the records
under consideration do not use them). -/
def parse_py_int : List Char → Option Int
  | '-' :: rest => (parse_int_digits rest).map Neg.neg
  | '+' :: rest => parse_int_digits rest
  | l => parse_int_digits l

/-- Conversion `np.int8(string)`: a non-numeric string raises
ValueError; a numeric value outside the int8 range raises OverflowError
in current numpy (older numpy wrapped modulo 256 instead — the records
evaluated in the theorems stay inside the range, so the difference is
not exercised). -/
def np_int8 (l : List Char) : Except PyErr Int :=
  match parse_py_int l with
  | none => .error (.valueError ("invalid literal for int: " ++ String.mk l))
  | some v =>
    if v < -128 ∨ 127 < v then
      .error (.overflowError ("Python integer out of bounds for int8: " ++ String.mk l))
    else .ok v

/-- to_boardstate (fen.py lines 8-130): split the record into its six
fields (else ValueError), parse the piece data (eight '/'-separated
ranks of eight squares, reversed so row 0 is rank 1), the active color
('w'/'b'), the castling availabilities, the en-passant field, the
half-move clock (an integer between 0 and 100 inclusive) and the
full-move number (an integer between 1 and 5899, from which the ply
count is derived). -/
def to_boardstate (record : String) : Except PyErr BoardStateE := do
  match splitWs record.toList with
  | [piece_data, active_color, castling_avail, enpassant_square,
     halfmove_clock, fullmove_num] => do
    let ranks := splitOnChar '/' piece_data
    if ranks.length ≠ 8 then
      throw (.valueError
        "FEN piece data should contain eight ranks, each separated by a \x27/\x27.")
    let board ← parse_ranks ranks.reverse
    let player ←
      if active_color = ['w'] then pure WHITE
      else if active_color = ['b'] then pure BLACK
      else throw (.valueError ("Active color must be either \x27w\x27 or \x27b\x27; got "
        ++ String.mk active_color ++ "."))
    let castling ← parse_castling castling_avail false false false false
    let ep ← parse_enpassant enpassant_square
    let hm ←
      match np_int8 halfmove_clock with
      | .error (.valueError _) =>
        throw (.valueError ("Halfmove clock must be an integer; got " ++
          String.mk halfmove_clock ++ "."))
      | .error e => throw e
      | .ok v => pure v
    let fifty ←
      if 0 ≤ hm ∧ hm ≤ 100 then pure hm
      else throw (.valueError ("Halfmove clock must be between 0 and 50; got " ++
        String.mk halfmove_clock ++ "."))
    let fm ←
      match np_int8 fullmove_num with
      | .error (.valueError _) =>
        throw (.valueError ("Fullmove number must be an integer; got " ++
          String.mk fullmove_num ++ "."))
      | .error e => throw e
      | .ok v => pure v
    let ply ←
      if 1 ≤ fm ∧ fm ≤ 5899 then
        pure ((fm - 1) * 2 + (if player = BLACK then 1 else 0))
      else throw (.valueError ("Fullmove number must be between 1 and 5899; got " ++
        String.mk fullmove_num ++ "."))
    pure ⟨board, castling, player, ep, fifty, ply⟩
  | _ => throw (.valueError "FEN record must contain six fields, each separated by a space.")

end Chessy

/-- C10: the two independent starting-position constructors agree: the
8 x 8 board built by ChessGame.new_board equals, element for element, the
board field of BoardState.create_new_game (pawns on rows 1 and 6, the
back-rank rows [4,2,3,5,6,3,2,4] and its negation, all other squares 0). -/
theorem claim_C10 :
    Chessy.new_board = Chessy.create_new_game.board ∧
    Chessy.new_board =
      [[4, 2, 3, 5, 6, 3, 2, 4],
       [1, 1, 1, 1, 1, 1, 1, 1],
       [0, 0, 0, 0, 0, 0, 0, 0],
       [0, 0, 0, 0, 0, 0, 0, 0],
       [0, 0, 0, 0, 0, 0, 0, 0],
       [0, 0, 0, 0, 0, 0, 0, 0],
       [-1, -1, -1, -1, -1, -1, -1, -1],
       [-4, -2, -3, -5, -6, -3, -2, -4]] :=
  ⟨rfl, rfl⟩

/-- C1: on the starting position the legality check neither accepts the
20 legal first moves nor rejects other moves with a piece-movement or
blocked-path error: it has no piece-movement logic at all, and both the
illegal pawn push a2-a5 and the legal pawn push a2-a3 make it crash with
TypeError inside the bounds check (np.ndarray misapplied to the square
tuple) before any movement rule could run. -/
theorem claim_C1 :
    Chessy.raise_for_illegal_move Chessy.initGame (1, 0) (4, 0) =
      .error (.typeError "tuple object cannot be interpreted as an integer") ∧
    Chessy.raise_for_illegal_move Chessy.initGame (1, 0) (2, 0) =
      .error (.typeError "tuple object cannot be interpreted as an integer") :=
  ⟨rfl, rfl⟩

/-- C2: a knight absolutely pinned to its king (white Ke1, Nd2, black
Bb4) moving off the pin ray to b3 is NOT rejected: move_breaks_absolute_pin
is a `pass` stub returning None, so move_results_in_own_check answers
false; yet after the move the mover's king really is attacked along the
vacated diagonal, as the spec-modelled ray walk from e1 toward b4
shows. -/
theorem claim_C2 :
    Chessy.move_results_in_own_check Chessy.pin_game (1, 3) (2, 1) = .ok false ∧
    Chessy.nearestOccupantSpec Chessy.pin_board_after (0, 4) (1, -1) = -3 :=
  ⟨rfl, rfl⟩

/-- C3: a king retreating along the line of a checking rook (white Ke5
to e4 against a black rook on e8) is not handled as the claim states:
the code consults the PRE-move board (the king still on e5) and, before
even finishing, its orthogonal ray scan raises ValueError (zero slice
step); on the post-move board the destination e4 is attacked by the rook
down the open file, so the claim demands rejection. -/
theorem claim_C3 :
    Chessy.move_results_in_own_check Chessy.c3_game (4, 4) (3, 4) =
      .error (.valueError "slice step cannot be zero") ∧
    Chessy.nearestOccupantSpec Chessy.c3_board_after (3, 4) (1, 0) = -4 :=
  ⟨rfl, rfl⟩

/-- C4: nearest_piece_in_direction fails on both named behaviours: for
an orthogonal direction it raises ValueError (the slicing tuple contains
a zero-step slice), although the spec walk finds the white pawn one step
up from a1; and for the diagonal direction (-1,-1) from c3 the slice
stop underflows to -1, Python wraps it, the slice comes out empty and
the function reports 0 even though the spec walk finds the black bishop
on a1. -/
theorem claim_C4 :
    Chessy.nearest_piece_in_direction Chessy.new_board (0, 0) (1, 0) =
      .error (.valueError "slice step cannot be zero") ∧
    Chessy.nearestOccupantSpec Chessy.new_board (0, 0) (1, 0) = 1 ∧
    Chessy.nearest_piece_in_direction Chessy.c6_board (2, 2) (-1, -1) = .ok 0 ∧
    Chessy.nearestOccupantSpec Chessy.c6_board (2, 2) (-1, -1) = -3 :=
  ⟨rfl, rfl, rfl, rfl⟩

/-- C5: ChessGame.move on the out-of-range origin (8,0) raises
IndexError, not an IllegalMoveError of any kind: the board is indexed by
square_is_empty before the bounds check runs (and the bounds check
itself would raise TypeError).  The state is not touched. -/
theorem claim_C5 :
    (Chessy.move Chessy.initGame (8, 0) (0, 0)).1 =
      .error (.indexError "index out of bounds for axis with size 8") ∧
    (Chessy.move Chessy.initGame (8, 0) (0, 0)).2 = Chessy.initGame :=
  ⟨rfl, rfl⟩

/-- C6: the diagonal attack detector misses a bishop at distance along
an open diagonal: with a black bishop on a1 and the square c3 under
test, the (-1,-1) ray scan builds an empty slice (stop index -1 wraps)
and reports no piece, so square_is_attacked_diagonal answers false, even
though the spec-modelled ray walk from c3 toward a1 meets the bishop
with nothing in between. -/
theorem claim_C6 :
    Chessy.square_is_attacked_diagonal Chessy.c6_game (2, 2) = false ∧
    Chessy.nearestOccupantSpec Chessy.c6_board (2, 2) (-1, -1) = -3 :=
  ⟨rfl, rfl⟩

/-- C7: a move rejected as illegal (move raises IllegalMoveError) leaves
the whole observable game state exactly as it was: every check that
raise_for_illegal_move runs only reads the state, and the state-updating
call comes strictly after the legality check. -/
theorem claim_C7 (g : Chessy.GameState) (s0 s1 : Int × Int) (m : String)
    (_h : (Chessy.move g s0 s1).1 = .error (.illegalMoveError m)) :
    (Chessy.move g s0 s1).2 = g := by
  unfold Chessy.move
  split
  · rfl
  · split <;> rfl

/-- Witness for C7: rejecting the empty-origin move (4,4)-(0,0) on the
starting position raises IllegalMoveError and leaves the state equal to
the starting state. -/
theorem claim_C7_witness :
    (Chessy.move Chessy.initGame (4, 4) (0, 0)).1 =
      .error (.illegalMoveError "Start-square is empty.") ∧
    (Chessy.move Chessy.initGame (4, 4) (0, 0)).2 = Chessy.initGame :=
  ⟨rfl, claim_C7 Chessy.initGame (4, 4) (0, 0) "Start-square is empty." rfl⟩

/-- C8: once the game is over, move returns the stored terminal score
for ANY pair of squares (even out-of-range ones, which would raise if
the legality check ran), raises nothing, and leaves the state
unchanged. -/
theorem claim_C8 (g : Chessy.GameState) (s0 s1 : Int × Int)
    (h : g.game_over = true) :
    Chessy.move g s0 s1 = (.ok (some g.score), g) := by
  simp [Chessy.move, h]

/-- Witness for C8: a finished game answers the stored score for the
garbage squares (9,9) and (-3,50) and keeps its state. -/
theorem claim_C8_witness :
    Chessy.over_game.game_over = true ∧
    Chessy.move Chessy.over_game (9, 9) (-3, 50) =
      (.ok (some Chessy.over_game.score), Chessy.over_game) :=
  ⟨rfl, claim_C8 Chessy.over_game (9, 9) (-3, 50) rfl⟩

/-- C9: to_boardstate accepts the structurally INVALID record whose
en-passant field is "e9" (not a square of the board): only the file
letter of that field is ever validated, so a BoardState with
enpassant_file 4 is returned where the claim demands ValueError. -/
theorem claim_C9 :
    Chessy.to_boardstate "8/8/8/8/8/8/8/8 w - e9 0 1" =
      .ok ⟨Chessy.zeros8x8, ⟨false, false, false, false⟩, 1, 4, 0, 0⟩ := by
  rfl
